import Mathlib

/-!
Verification of the homepage feature-card renderer
(`src/prompt-insights/src/components/HomepageFeatures/index.tsx`).

The component is a pure presentational function: a fixed list of feature
entries (`FeatureList`), a per-entry card renderer (`Feature`) and the
page-section entry point (`HomepageFeatures`).  We embed the produced
React element tree as a first-order `Node` tree: JSX elements become
`Node.element tag attrs children`, JSX fragments (`<>...</>`) become
`Node.fragment`, and literal text becomes `Node.text` with JSX whitespace
collapsing applied (leading and trailing whitespace of a multi-line text
run is trimmed and interior line breaks collapse to one space).

External pieces are embedded by their rendering contract:
  * `clsx` called with a single constant string returns that string;
  * `Heading` from the theme with prop `as` renders an element of that tag;
  * a CSS-module import (`styles.module.css`) yields opaque class names;
  * an imported SVG asset component renders an inline `svg` element whose
    attributes are the JSX props (`className`, `role`); the opaque asset
    handle is recorded as the `asset` attribute;
  * the React `key` prop is a reconciliation hint that does not appear in
    the rendered output, so the embedded map produces the card alone.
-/

/-- A rendered virtual-DOM node: an element with a tag, an attribute list
and children, a text run, or a fragment (a transparent grouping). -/
inductive Node where
  | text (s : String)
  | element (tag : String) (attrs : List (String × String)) (children : List Node)
  | fragment (children : List Node)
deriving Repr

/-- The CSS-module object imported from `styles.module.css`: opaque class
names resolved by the external styling pipeline. -/
structure StylesModule where
  featureSvg : String
  features : String
deriving Repr

/-- `import styles from './styles.module.css'` — the two class names the
component uses. -/
def styles : StylesModule :=
  { featureSvg := "featureSvg", features := "features" }

/-- `clsx` applied to a single constant string argument returns it
unchanged. -/
def clsx (s : String) : String := s

/-- `@theme/Heading` with an `as` prop renders an element of that tag
containing the children. -/
def Heading (hTag : String) (children : List Node) : Node :=
  Node.element hTag [] children

/-- The `FeatureItem` record type of the component: a title string, an
opaque SVG asset handle (the resolved default export of the `require`d
module) and a rich-text description. -/
structure FeatureItem where
  title : String
  Svg : String
  description : Node
deriving Repr

/-- First entry of `FeatureList` (source lines 13–22). -/
def featureEntry1 : FeatureItem :=
  { title := "실전 프롬프트 분석",
    Svg := "@site/static/img/undraw_docusaurus_mountain.svg",
    description := Node.fragment
      [ Node.text "Cluely, Cursor, Perplexity 같은 ",
        Node.element "strong" [] [Node.text "실제 서비스"],
        Node.text "에서 사용되는 프롬프트를 분석하여 검증된 패턴과 전략을 공유합니다." ] }

/-- Second entry of `FeatureList` (source lines 23–32). -/
def featureEntry2 : FeatureItem :=
  { title := "LLM 에이전트 최적화",
    Svg := "@site/static/img/undraw_docusaurus_tree.svg",
    description := Node.fragment
      [ Node.text "역할 정의, 컨텍스트 관리, 도구 활용 등 ",
        Node.element "strong" [] [Node.text "에이전트 개발의 핵심 요소"],
        Node.text "들을 체계적으로 분석하고 베스트 프랙티스를 제시합니다." ] }

/-- Third entry of `FeatureList` (source lines 33–42). -/
def featureEntry3 : FeatureItem :=
  { title := "바로 적용 가능한 인사이트",
    Svg := "@site/static/img/undraw_docusaurus_react.svg",
    description := Node.fragment
      [ Node.text "이론이 아닌 ",
        Node.element "strong" [] [Node.text "실무에서 바로 활용"],
        Node.text "할 수 있는 프롬프트 패턴과 구현 가이드를 제공합니다." ] }

/-- The fixed, build-time `FeatureList` of the component (source lines
12–43), in source order. -/
def FeatureList : List FeatureItem :=
  [featureEntry1, featureEntry2, featureEntry3]

/-- The `Feature` card renderer (source lines 45–57): a one-third column
holding a centered icon, then a centered block with an `h3` title and a
paragraph with the description. -/
def Feature (item : FeatureItem) : Node :=
  Node.element "div" [("className", clsx "col col--4")]
    [ Node.element "div" [("className", "text--center")]
        [ Node.element "svg"
            [ ("asset", item.Svg),
              ("className", styles.featureSvg),
              ("role", "img") ] [] ],
      Node.element "div" [("className", "text--center padding-horiz--md")]
        [ Heading "h3" [Node.text item.title],
          Node.element "p" [] [item.description] ] ]

/-- The body of `HomepageFeatures` (source lines 59–71) generalized over
the feature list it maps: a `section` wrapping a `container` div wrapping
a `row` div that holds one `Feature` card per entry, in list order. -/
def HomepageFeaturesOf (fl : List FeatureItem) : Node :=
  Node.element "section" [("className", styles.features)]
    [ Node.element "div" [("className", "container")]
        [ Node.element "div" [("className", "row")]
            (fl.map (fun props => Feature props)) ] ]

/-- The exported `HomepageFeatures` entry point: the body applied to the
module-level `FeatureList`. -/
def HomepageFeatures : Node :=
  HomepageFeaturesOf FeatureList

/-- One invocation of the entry point, with the module-level list threaded
through explicitly so that absence of mutation is a stated fact rather
than a convention: the invocation returns the (unchanged) list together
with the rendered output.  The source body only reads `FeatureList`
(via `FeatureList.map`), so the list component is returned as received. -/
def renderStep (fl : List FeatureItem) : List FeatureItem × Node :=
  (fl, HomepageFeaturesOf fl)

/-- Two consecutive invocations of the entry point, the second reading
whatever list the first left behind; returns both rendered outputs. -/
def renderTwice (fl : List FeatureItem) : Node × Node :=
  ((renderStep fl).2, (renderStep (renderStep fl).1).2)

/-- Attribute lookup in an attribute list (first match). -/
def getAttr (attrs : List (String × String)) (k : String) : Option String :=
  (attrs.find? (fun p => p.1 == k)).map (fun p => p.2)

/-- The children of a node (`[]` for text). -/
def Node.childrenOf : Node → List Node
  | Node.text _ => []
  | Node.element _ _ cs => cs
  | Node.fragment cs => cs

/-- The tag of a node, when it is an element. -/
def Node.tagOf : Node → Option String
  | Node.element t _ _ => some t
  | _ => none

/-- The `className` attribute of a node, when it is an element carrying
one. -/
def Node.classOf : Node → Option String
  | Node.element _ a _ => getAttr a "className"
  | _ => none

/-- The list of cards inside the rendered section: the children of the
row div inside the container div inside the section. -/
def sectionCards (n : Node) : List Node :=
  ((n.childrenOf.headD (Node.fragment [])).childrenOf.headD
      (Node.fragment [])).childrenOf

mutual

/-- All descendant elements (the node itself included) carrying the given
tag, in document order. -/
def elementsWithTag (t : String) : Node → List Node
  | Node.text _ => []
  | Node.fragment cs => elementsWithTagL t cs
  | Node.element tag a cs =>
      (if tag = t then [Node.element tag a cs] else []) ++ elementsWithTagL t cs

/-- `elementsWithTag` over a list of nodes, concatenated in order. -/
def elementsWithTagL (t : String) : List Node → List Node
  | [] => []
  | c :: cs => elementsWithTag t c ++ elementsWithTagL t cs

end

mutual

/-- The concatenated text content of a node. -/
def allText : Node → String
  | Node.text s => s
  | Node.fragment cs => allTextL cs
  | Node.element _ _ cs => allTextL cs

/-- `allText` over a list of nodes, concatenated in order. -/
def allTextL : List Node → String
  | [] => ""
  | c :: cs => allText c ++ allTextL cs

end

/-- The text of every `h3` heading in the tree, in document order. -/
def headingTexts (n : Node) : List String :=
  (elementsWithTag "h3" n).map allText

/-- Whether a node is a `section` element. -/
def isSection (n : Node) : Bool :=
  n.tagOf == some "section"

/-- The node holding a card's title: the first child of the card's second
child (the centered text block). -/
def cardTitleNode (c : Node) : Option Node :=
  (c.childrenOf.getD 1 (Node.fragment [])).childrenOf.head?

/-- A card's icon wrapper: the card's first child. -/
def cardIconWrapper (c : Node) : Option Node :=
  c.childrenOf.head?

/-- A card's icon element: the first child of its icon wrapper. -/
def cardIcon (c : Node) : Option Node :=
  (c.childrenOf.headD (Node.fragment [])).childrenOf.head?

/-- The value of the named attribute of a node, when it is an element
carrying it. -/
def Node.attrOf (k : String) : Node → Option String
  | Node.element _ a _ => getAttr a k
  | _ => none

/-- C1: for every feature list given to the rendering body, the rendered
section contains exactly one card per entry (the row has the same length
as the list, and is exactly the entry-wise image of the list under
`Feature`), and the i-th card is the card of the i-th entry. -/
theorem homepage_renders_one_card_per_entry_in_order
    (fl : List FeatureItem) (i : Nat) (h : i < fl.length) :
    (sectionCards (HomepageFeaturesOf fl)).length = fl.length ∧
    sectionCards (HomepageFeaturesOf fl) = fl.map Feature ∧
    (sectionCards (HomepageFeaturesOf fl))[i]? = some (Feature (fl.get ⟨i, h⟩)) := by
  refine ⟨?_, rfl, ?_⟩
  · show (fl.map Feature).length = fl.length
    simp
  · show (fl.map Feature)[i]? = some (Feature (fl.get ⟨i, h⟩))
    simp [List.getElem?_eq_getElem, h]

/-- C1 witness: the correspondence instantiated at the build-time list
and index 0. -/
theorem homepage_renders_one_card_per_entry_in_order_witness :
    (sectionCards (HomepageFeaturesOf FeatureList)).length = FeatureList.length ∧
    sectionCards (HomepageFeaturesOf FeatureList) = FeatureList.map Feature ∧
    (sectionCards (HomepageFeaturesOf FeatureList))[0]? =
      some (Feature (FeatureList.get ⟨0, by decide⟩)) :=
  homepage_renders_one_card_per_entry_in_order FeatureList 0 (by decide)

/-- C2: a card rendered for an entry whose description embeds no heading
or paragraph element of its own contains exactly one `h3` heading, holding
exactly the entry's title, and exactly one paragraph, holding exactly the
entry's description — nothing dropped, duplicated, or taken from another
entry. -/
theorem feature_card_contains_title_heading_and_description (e : FeatureItem)
    (hh : elementsWithTag "h3" e.description = [])
    (hp : elementsWithTag "p" e.description = []) :
    elementsWithTag "h3" (Feature e) = [Node.element "h3" [] [Node.text e.title]] ∧
    elementsWithTag "p" (Feature e) = [Node.element "p" [] [e.description]] := by
  constructor <;>
    simp [Feature, Heading, clsx, elementsWithTag, elementsWithTagL, hh, hp]

/-- C2 witness: the first build-time entry satisfies both hypotheses and
its card carries exactly its title heading and its description paragraph. -/
theorem feature_card_contains_title_heading_and_description_witness :
    elementsWithTag "h3" featureEntry1.description = [] ∧
    elementsWithTag "p" featureEntry1.description = [] ∧
    elementsWithTag "h3" (Feature featureEntry1) =
      [Node.element "h3" [] [Node.text featureEntry1.title]] ∧
    elementsWithTag "p" (Feature featureEntry1) =
      [Node.element "p" [] [featureEntry1.description]] :=
  ⟨rfl, rfl,
    (feature_card_contains_title_heading_and_description featureEntry1 rfl rfl).1,
    (feature_card_contains_title_heading_and_description featureEntry1 rfl rfl).2⟩

/-- C3: rendering the repository's actual fixed list yields exactly three
cards, whose headings read, in left-to-right order, the three titles of
the source list; each card's single paragraph holds exactly its entry's
description, and the embedded emphasis markup survives as the three
`strong` elements in order. -/
theorem homepage_fixed_list_renders_three_titled_cards :
    (sectionCards HomepageFeatures).length = 3 ∧
    headingTexts HomepageFeatures =
      ["실전 프롬프트 분석", "LLM 에이전트 최적화", "바로 적용 가능한 인사이트"] ∧
    (sectionCards HomepageFeatures).map (fun c => elementsWithTag "p" c) =
      [ [Node.element "p" [] [featureEntry1.description]],
        [Node.element "p" [] [featureEntry2.description]],
        [Node.element "p" [] [featureEntry3.description]] ] ∧
    elementsWithTag "strong" HomepageFeatures =
      [ Node.element "strong" [] [Node.text "실제 서비스"],
        Node.element "strong" [] [Node.text "에이전트 개발의 핵심 요소"],
        Node.element "strong" [] [Node.text "실무에서 바로 활용"] ] :=
  ⟨rfl, rfl, rfl, rfl⟩

/-- C4: the empty feature list renders (without any error value — the
renderer is a total function into `Node`) the section wrapper with an
empty row: zero cards. -/
theorem homepage_empty_list_renders_empty_section :
    HomepageFeaturesOf [] =
      Node.element "section" [("className", styles.features)]
        [ Node.element "div" [("className", "container")]
            [Node.element "div" [("className", "row")] []] ] ∧
    sectionCards (HomepageFeaturesOf []) = [] ∧
    isSection (HomepageFeaturesOf []) = true :=
  ⟨rfl, rfl, rfl⟩

/-- C5: two consecutive invocations of the rendering entry point, the
second reading the list state the first left behind, produce structurally
identical outputs, both equal to the single render of the input. -/
theorem homepage_render_idempotent (fl : List FeatureItem) :
    (renderTwice fl).1 = (renderTwice fl).2 ∧
    renderTwice fl = (HomepageFeaturesOf fl, HomepageFeaturesOf fl) :=
  ⟨rfl, rfl⟩

/-- C6: the renderer is total — for every well-formed feature list it
produces a `section` node of the fixed wrapper shape; the embedding has
no error value, mirroring the absence of any fallible branch in the
component. -/
theorem homepage_render_total (fl : List FeatureItem) :
    isSection (HomepageFeaturesOf fl) = true ∧
    HomepageFeaturesOf fl =
      Node.element "section" [("className", styles.features)]
        [ Node.element "div" [("className", "container")]
            [Node.element "div" [("className", "row")] (fl.map Feature)] ] :=
  ⟨rfl, rfl⟩

/-- C7: an invocation of the rendering entry point returns the feature
list unchanged — in particular the build-time `FeatureList` keeps its
length, order, and every title after rendering. -/
theorem render_does_not_mutate_featurelist (fl : List FeatureItem) :
    (renderStep fl).1 = fl ∧
    (renderStep FeatureList).1 = [featureEntry1, featureEntry2, featureEntry3] ∧
    (renderStep FeatureList).1.map (fun e => e.title) =
      ["실전 프롬프트 분석", "LLM 에이전트 최적화", "바로 적용 가능한 인사이트"] ∧
    (renderStep FeatureList).1.length = 3 :=
  ⟨rfl, rfl, rfl, rfl⟩

/-- C8: every card in the rendered row carries the class string
`col col--4`, whose grid token `col--4` denotes a one-third-width column
in the external 12-column styling system (so three cards fill one row);
the visual layout itself is delegated to that styling system. -/
theorem feature_card_one_third_column
    (fl : List FeatureItem) (c : Node)
    (hc : c ∈ sectionCards (HomepageFeaturesOf fl)) :
    Node.classOf c = some (clsx "col col--4") ∧
    clsx "col col--4" = "col" ++ " " ++ "col--4" := by
  refine ⟨?_, rfl⟩
  have hmem : c ∈ fl.map Feature := hc
  obtain ⟨e, -, rfl⟩ := List.mem_map.mp hmem
  rfl

/-- C8 witness: the first card of the actual render is in the row and
carries the one-third-column class. -/
theorem feature_card_one_third_column_witness :
    Node.classOf (Feature featureEntry1) = some (clsx "col col--4") ∧
    clsx "col col--4" = "col" ++ " " ++ "col--4" :=
  feature_card_one_third_column FeatureList (Feature featureEntry1)
    (by show Feature featureEntry1 ∈
          [Feature featureEntry1, Feature featureEntry2, Feature featureEntry3]
        exact List.mem_cons_self _ _)

/-- C9: the title of every entry is rendered as a level-3 heading: the
card's title node is an `h3` element holding the title text, exactly what
the theme heading component produces for tag `h3`. -/
theorem feature_title_rendered_as_h3 (e : FeatureItem) :
    cardTitleNode (Feature e) = some (Node.element "h3" [] [Node.text e.title]) ∧
    Heading "h3" [Node.text e.title] = Node.element "h3" [] [Node.text e.title] :=
  ⟨rfl, rfl⟩

/-- C10: every card's icon is rendered with the component's `featureSvg`
style class and the accessibility attribute `role` set to `img`, inside a
wrapper div carrying the centering class `text--center`. -/
theorem feature_icon_role_img_centered (e : FeatureItem) :
    cardIconWrapper (Feature e) =
      some (Node.element "div" [("className", "text--center")]
        [ Node.element "svg"
            [ ("asset", e.Svg),
              ("className", styles.featureSvg),
              ("role", "img") ] [] ]) ∧
    (cardIcon (Feature e)).bind Node.classOf = some styles.featureSvg ∧
    (cardIcon (Feature e)).bind (Node.attrOf "role") = some "img" ∧
    (cardIconWrapper (Feature e)).bind Node.classOf = some "text--center" :=
  ⟨rfl, rfl, rfl, rfl⟩
